import Mathlib

/-!
Shallow embedding of the voice-agent platform frontend (one-shot-prompt-voice-agent).

The embedded code:
* the API-driven `ChatInterface` (its `sendMessage` flow, split at the `await`
  into a start phase and a finish phase),
* the older simulated `ChatInterface.handleSendMessage` (canned responses),
* `VoiceChatPage.handleConnect` (token fetch + LiveKit join),
* `MCPCatalog.loadData`'s connector sorting,
* `MCPConfigForm`'s secret-field masking,
* `MCPTestPanel.handleTest` (JSON test-parameter validation).

The session-supervisor degradation policy has no implementation in the
repository sources; it is modelled from the spec where noted.

External calls (`api.post`, `fetch`, `connect`, `testAction`, `JSON.parse`)
are embedded as explicit outcome parameters: a run of the handler is a pure
function of the state and of the outcomes those calls produced.
-/

/-- Whitespace recognized by the embedding of JavaScript's `String.prototype.trim`. -/
def isWhitespaceChar (c : Char) : Bool :=
  c == ' ' || c == '\t' || c == '\n' || c == '\r'

/-- Drops leading whitespace characters from a character list. -/
def dropLeadingWhitespace : List Char → List Char
  | [] => []
  | c :: t => if isWhitespaceChar c then dropLeadingWhitespace t else c :: t

/-- Embedding of JavaScript's `String.prototype.trim`: strip whitespace at both ends. -/
def jsTrim (s : String) : String :=
  String.mk (dropLeadingWhitespace ((dropLeadingWhitespace s.data.reverse).reverse))

/-- Embedding of JavaScript's `String.prototype.toLowerCase` (per-character lowering). -/
def jsToLower (s : String) : String :=
  String.mk (s.data.map Char.toLower)

/-- Embedding of JavaScript's `String.prototype.includes`:
`strContainsSub hay needle` is true when `needle` occurs contiguously in `hay`. -/
def strContainsSub : List Char → List Char → Bool
  | [], needle => needle.isEmpty
  | c :: t, needle => needle.isPrefixOf (c :: t) || strContainsSub t needle

/-! ## API-driven ChatInterface (third document in MCPTestPanel.tsx bundle) -/

/-- Message role, `'user' | 'assistant'` in the `Message` interface. -/
inductive Role
  | user
  | assistant
  deriving DecidableEq

/-- The chat `Message` interface (id, content, role); the `timestamp : Date`
field is wall-clock data irrelevant to the claims and is elided. -/
structure Message where
  id : String
  content : String
  role : Role
  deriving DecidableEq

/-- The `AgentInvokeResponse` interface returned by `/api/v1/agent/invoke`. -/
structure AgentInvokeResponse where
  success : Bool
  agent_response : Option String
  error : Option String
  deriving DecidableEq

/-- The fixed fields of the `api.post('/api/v1/agent/invoke', ...)` request body
built inside `sendMessage` (personality traits elided; `tts_enabled` is the
literal `false` from the source). -/
structure AgentInvokeRequest where
  user_input : String
  session_id : String
  tts_enabled : Bool
  model : String
  deriving DecidableEq

/-- The request body `sendMessage` posts: `tts_enabled: false`, `model: 'gpt-4'`. -/
def invokeRequest (userInput sessionId : String) : AgentInvokeRequest :=
  ⟨userInput, sessionId, false, "gpt-4"⟩

/-- State of the API-driven `ChatInterface` component: `agentPresent` embeds
`agent !== null`, the rest are the `useState` hooks `messages`, `inputMessage`,
`isLoading`. `pending` instruments the number of outstanding `api.post` calls
(it is not a source variable: it counts `await`s entered but not yet resumed). -/
structure ChatState where
  agentPresent : Bool
  messages : List Message
  inputMessage : String
  isLoading : Bool
  pending : Nat
  deriving DecidableEq

/-- Synchronous prefix of `sendMessage`, up to the `await api.post`:
the guard `if (!inputMessage.trim() || !agent || isLoading) return`, then
appending the user message, clearing the input and setting `isLoading`.
Returns the new state and whether a request was actually issued. -/
def sendMessageStart (newId : String) (st : ChatState) : ChatState × Bool :=
  if jsTrim st.inputMessage == "" || !st.agentPresent || st.isLoading then
    (st, false)
  else
    ({ st with
        messages := st.messages ++ [⟨newId, jsTrim st.inputMessage, Role.user⟩],
        inputMessage := "",
        isLoading := true,
        pending := st.pending + 1 }, true)

/-- The truthiness test `data?.success && data?.agent_response` of `sendMessage`:
yields the reply text exactly when the call returned (`some`), `success` is true
and `agent_response` is a non-empty string; `none` models every path that ends
in the `catch` block (network rejection, `success: false`, missing or empty
`agent_response`). -/
def successResponse (resp : Option AgentInvokeResponse) : Option String :=
  match resp with
  | some r =>
    if r.success then
      match r.agent_response with
      | some s => if s == "" then none else some s
      | none => none
    else none
  | none => none

/-- The message appended by the `catch` branch of `sendMessage`. -/
def agentUnavailableMessage : Message :=
  ⟨"error", "⚠️ Error: Agent unavailable", Role.assistant⟩

/-- Continuation of `sendMessage` after the `await`: on a successful response
append the assistant message; otherwise the `catch` branch appends the error
message; the `finally` branch clears `isLoading` on both paths. -/
def sendMessageFinish (newId : String) (resp : Option AgentInvokeResponse)
    (st : ChatState) : ChatState :=
  match successResponse resp with
  | some s =>
      { st with
          messages := st.messages ++ [⟨newId, s, Role.assistant⟩],
          isLoading := false,
          pending := st.pending - 1 }
  | none =>
      { st with
          messages := st.messages ++ [agentUnavailableMessage],
          isLoading := false,
          pending := st.pending - 1 }

/-- View of one completed chat exchange as the spec's Turn record: the reply
text comes from `agent_response`; the synthesized-audio handle is always `none`
because the shipped flow posts `tts_enabled: false` and `AgentInvokeResponse`
carries no audio field; `completed` distinguishes the success path from the
`catch` (abandonment) path. -/
structure TurnResult where
  replyText : Option String
  audioHandle : Option String
  completed : Bool
  deriving DecidableEq

/-- The turn outcome determined by the agent-invoke response. -/
def turnResult (resp : Option AgentInvokeResponse) : TurnResult :=
  match successResponse resp with
  | some s => ⟨some s, none, true⟩
  | none => ⟨none, none, false⟩

/-- Events of one `ChatInterface` session: a `sendMessage` start that issued a
request, typing into the input (which the UI only allows while not loading:
`disabled={isLoading}`), and the resumption of an outstanding request. -/
inductive ChatStep : ChatState → ChatState → Prop
  | send (st : ChatState) (newId : String)
      (h : (sendMessageStart newId st).2 = true) :
      ChatStep st (sendMessageStart newId st).1
  | typeInput (st : ChatState) (s : String) (h : st.isLoading = false) :
      ChatStep st { st with inputMessage := s }
  | finish (st : ChatState) (newId : String) (resp : Option AgentInvokeResponse)
      (h : 0 < st.pending) :
      ChatStep st (sendMessageFinish newId resp st)

/-- Reflexive-transitive closure of `ChatStep`. -/
inductive ChatReachable : ChatState → ChatState → Prop
  | refl (st : ChatState) : ChatReachable st st
  | step (st1 st2 st3 : ChatState) :
      ChatReachable st1 st2 → ChatStep st2 st3 → ChatReachable st1 st3

/-- Session invariant: the number of outstanding agent requests is `1` exactly
while `isLoading`, `0` otherwise. -/
def ChatInv (st : ChatState) : Prop :=
  st.pending = if st.isLoading then 1 else 0

/-- A fresh chat session state: agent selected, empty history, idle. -/
def chatState0 : ChatState := ⟨true, [], "m1", false, 0⟩

/-- The state after sending "m1" (a turn in flight) with a second finalized
transcript "m2" placed in the input. -/
def chatStateBusy : ChatState :=
  { (sendMessageStart "1" chatState0).1 with inputMessage := "m2" }

/-- A successful agent-invoke response. -/
def goodResponse : AgentInvokeResponse := ⟨true, some "reply", none⟩

/-- A failed agent-invoke response (`success: false`). -/
def failResponse : AgentInvokeResponse := ⟨false, none, some "boom"⟩

/-! ## Simulated ChatInterface (second document in MCPTestPanel.tsx bundle) -/

/-- State of the older, simulated `ChatInterface`. -/
structure SimChatState where
  agentPresent : Bool
  messages : List Message
  inputMessage : String
  isLoading : Bool
  deriving DecidableEq

/-- The five canned response strings of the simulated `handleSendMessage`. -/
def simulatedResponses : List String :=
  ["Listen, that's actually a really interesting question. Let me break this down for you with some real science...",
   "*burp* Oh great, another one who thinks they understand the universe. Let me explain why you're wrong...",
   "You know what? That's not completely stupid. Here's what you need to understand about quantum mechanics...",
   "Wubba lubba dub dub! But seriously, your question touches on some fundamental principles of...",
   "Look, I've been to 47 different dimensions, and in every single one, the answer is..."]

/-- The fixed simulated latency: `setTimeout(resolve, 1500)`. -/
def simulatedDelayMs : Nat := 1500

/-- The external calls a chat flow can make; the simulated flow only ever
performs the timer delay, never STT, TTS or a real agent API call. -/
inductive ExternalCall
  | delayCall (ms : Nat)
  | sttCall
  | ttsCall
  | agentApiCall
  deriving DecidableEq

/-- The simulated `handleSendMessage`: same guard as `sendMessage`; on the send
path it waits 1500 ms, picks `responses[Math.floor(Math.random() * length)]`
(the random draw is the `idx` parameter) and appends the user message and the
canned assistant message (the transient typing indicator, added and removed
within the same flow, nets out of the final state). The second component lists
the external calls performed. -/
def handleSendMessage (newId : String) (idx : Fin simulatedResponses.length)
    (st : SimChatState) : SimChatState × List ExternalCall :=
  if jsTrim st.inputMessage == "" || !st.agentPresent || st.isLoading then
    (st, [])
  else
    ({ agentPresent := st.agentPresent,
       messages := st.messages ++
         [⟨newId, jsTrim st.inputMessage, Role.user⟩,
          ⟨newId ++ "a", simulatedResponses.get idx, Role.assistant⟩],
       inputMessage := "",
       isLoading := false },
     [ExternalCall.delayCall simulatedDelayMs])

/-- A simulated-chat state holding one prior assistant message. -/
def simMsg0 : Message := ⟨"w", "welcome", Role.assistant⟩

/-- A concrete simulated-chat state with text ready to send. -/
def simState0 : SimChatState := ⟨true, [simMsg0], "hi", false⟩

/-! ## VoiceChatPage.handleConnect -/

/-- The JSON body of `/api/v1/livekit/token` as `handleConnect` reads it. -/
structure TokenResponse where
  success : Bool
  detail : Option String
  url : String
  token : String
  deriving DecidableEq

/-- State of `VoiceChatPage`: `isConnecting` and `connectionError` are its
`useState` hooks; `isConnected` is the LiveKit provider's connection flag. -/
structure VoiceChatState where
  isConnecting : Bool
  connectionError : Option String
  isConnected : Bool
  deriving DecidableEq

/-- Prefix of `handleConnect`: `setIsConnecting(true); setConnectionError(null)` —
the session-start attempt enters its initializing state. -/
def handleConnectBegin (st : VoiceChatState) : VoiceChatState :=
  { st with isConnecting := true, connectionError := none }

/-- Rest of `handleConnect`: the token fetch outcome and the LiveKit `connect`
outcome are explicit (`Except.error` carries the thrown message; a join that
does not complete within the SDK timeout surfaces as such an error). The
returned flag records whether `connect` was attempted. The `catch` stores the
message in `connectionError`; the `finally` clears `isConnecting`. -/
def handleConnectFinish (st : VoiceChatState)
    (tokenResult : Except String TokenResponse)
    (joinResult : Except String Unit) : VoiceChatState × Bool :=
  match tokenResult with
  | Except.error e =>
      ({ st with isConnecting := false, connectionError := some e }, false)
  | Except.ok t =>
    if t.success then
      match joinResult with
      | Except.error e =>
          ({ st with isConnecting := false, connectionError := some e }, true)
      | Except.ok _ =>
          ({ st with isConnecting := false, isConnected := true }, true)
    else
      ({ st with isConnecting := false,
                 connectionError := some (t.detail.getD "Failed to get token") },
       false)

/-- The whole `handleConnect` run for given external-call outcomes. -/
def handleConnect (st : VoiceChatState) (tokenResult : Except String TokenResponse)
    (joinResult : Except String Unit) : VoiceChatState × Bool :=
  handleConnectFinish (handleConnectBegin st) tokenResult joinResult

/-- A disconnected `VoiceChatPage` state. -/
def vcState0 : VoiceChatState := ⟨false, none, false⟩

/-- A successful token response. -/
def tokOk : Except String TokenResponse := Except.ok ⟨true, none, "wss://lk", "tok"⟩

/-- A join attempt that timed out. -/
def joinTimeout : Except String Unit := Except.error "join timed out"

/-! ## Session supervisor degradation policy -/

/-- Modelled from the spec: the capabilities the degradation rules range over
(spec 4.3 rules 1-3 mention only STT and TTS); no implementation of the
session supervisor exists in the repository sources. -/
inductive Capability
  | stt
  | tts
  deriving DecidableEq

/-- Modelled from the spec: per-capability health record (consecutive-failure
count and enabled flag); the repository sources contain no such record. -/
structure CapabilityStatus where
  consecutiveFailures : Nat
  enabled : Bool
  deriving DecidableEq

/-- Modelled from the spec: the supervisor's per-session capability table. -/
structure SupervisorState where
  stt : CapabilityStatus
  tts : CapabilityStatus
  deriving DecidableEq

/-- Modelled from the spec glossary: `None | VoiceOnly(variant) | Minimal`. -/
inductive DegradationLevel
  | none
  | voiceOnly
  | minimal
  deriving DecidableEq

/-- Severity ordering of degradation levels: `None < VoiceOnly < Minimal`. -/
def levelRank : DegradationLevel → Nat
  | DegradationLevel.none => 0
  | DegradationLevel.voiceOnly => 1
  | DegradationLevel.minimal => 2

/-- Modelled from the spec: the consecutive-failure threshold
(policy constant, default 3; scenario C disables after 3 failures). -/
def failureThreshold : Nat := 3

/-- Reads one capability record. -/
def capOf (s : SupervisorState) : Capability → CapabilityStatus
  | Capability.stt => s.stt
  | Capability.tts => s.tts

/-- Replaces one capability record. -/
def setCap (s : SupervisorState) : Capability → CapabilityStatus → SupervisorState
  | Capability.stt, c => { s with stt := c }
  | Capability.tts, c => { s with tts := c }

/-- Modelled from the spec: `reportCapabilityFailure` increments the
consecutive-failure count and disables the capability once the count reaches
the threshold; it never re-enables anything. -/
def reportCapabilityFailure (s : SupervisorState) (c : Capability) : SupervisorState :=
  let cs := capOf s c
  let n := cs.consecutiveFailures + 1
  setCap s c ⟨n, if failureThreshold ≤ n then false else cs.enabled⟩

/-- Modelled from the spec: `recheckCapability` on success resets the failure
count and re-enables the capability; on failure it changes nothing. -/
def recheckCapability (s : SupervisorState) (c : Capability) (healthy : Bool) :
    SupervisorState :=
  if healthy then setCap s c ⟨0, true⟩ else s

/-- Modelled from the spec, rules 1-3 of the degradation policy, as a function
of the two enabled flags: both disabled is `Minimal`, exactly one disabled is
`VoiceOnly`, all enabled is `None`. -/
def levelOfFlags (sttEnabled ttsEnabled : Bool) : DegradationLevel :=
  if !sttEnabled && !ttsEnabled then DegradationLevel.minimal
  else if !sttEnabled || !ttsEnabled then DegradationLevel.voiceOnly
  else DegradationLevel.none

/-- The degradation level recomputed from the capability table. -/
def computeLevel (s : SupervisorState) : DegradationLevel :=
  levelOfFlags s.stt.enabled s.tts.enabled

/-- Modelled from the spec: the supervisor mutates the capability table only
through failure reports and explicit health rechecks. -/
inductive SupervisorStep : SupervisorState → SupervisorState → Prop
  | report (s : SupervisorState) (c : Capability) :
      SupervisorStep s (reportCapabilityFailure s c)
  | recheck (s : SupervisorState) (c : Capability) (healthy : Bool) :
      SupervisorStep s (recheckCapability s c healthy)

/-- A supervisor state with STT disabled after three failures. -/
def supDegraded : SupervisorState := ⟨⟨3, false⟩, ⟨0, true⟩⟩

/-! ## MCPCatalog connector sorting -/

/-- The `MCPConnector` fields the catalog list uses (capability lists and
health record elided; `status` is kept as a string because the comparator
handles unknown statuses with `?? 4`). -/
structure MCPConnector where
  id : String
  name : String
  version : String
  status : String
  configured : Bool
  deriving DecidableEq

/-- The `statusOrder` lookup of `MCPCatalog.loadData`:
`{ enabled: 0, degraded: 1, disabled: 2, unconfigured: 3 }` with `?? 4`. -/
def statusOrder (s : String) : Nat :=
  if s = "enabled" then 0
  else if s = "degraded" then 1
  else if s = "disabled" then 2
  else if s = "unconfigured" then 3
  else 4

/-- The ordering realized by the `sort` comparator: ascending `statusOrder`,
ties broken by name (`localeCompare` embedded as the string order). -/
def connectorLE (a b : MCPConnector) : Prop :=
  statusOrder a.status < statusOrder b.status ∨
    (statusOrder a.status = statusOrder b.status ∧ a.name ≤ b.name)

instance : DecidableRel connectorLE := fun a b => by
  unfold connectorLE; exact inferInstance

instance : IsTotal MCPConnector connectorLE := by
  constructor
  intro a b
  rcases Nat.lt_trichotomy (statusOrder a.status) (statusOrder b.status) with h | h | h
  · exact Or.inl (Or.inl h)
  · rcases le_total a.name b.name with h2 | h2
    · exact Or.inl (Or.inr ⟨h, h2⟩)
    · exact Or.inr (Or.inr ⟨h.symm, h2⟩)
  · exact Or.inr (Or.inl h)

instance : IsTrans MCPConnector connectorLE := by
  constructor
  intro a b c hab hbc
  rcases hab with h1 | ⟨h1, h1n⟩ <;> rcases hbc with h2 | ⟨h2, h2n⟩
  · exact Or.inl (h1.trans h2)
  · exact Or.inl (h2 ▸ h1)
  · exact Or.inl (h1 ▸ h2)
  · exact Or.inr ⟨h1.trans h2, le_trans h1n h2n⟩

/-- The `sortedConnectors` computation of `MCPCatalog.loadData`: the catalog
list sorted by the comparator (embedded as a sort by `connectorLE`). -/
def sortedConnectors (l : List MCPConnector) : List MCPConnector :=
  List.insertionSort connectorLE l

/-- A concrete catalog response list. -/
def connList0 : List MCPConnector :=
  [⟨"1", "beta", "1.0", "disabled", true⟩,
   ⟨"2", "alpha", "1.0", "enabled", true⟩,
   ⟨"3", "gamma", "1.0", "enabled", false⟩]

/-! ## MCPConfigForm secret fields -/

/-- The `secretFields` list of `MCPConfigForm.isSecretField`. -/
def secretFields : List String := ["password", "api_key", "secret", "token", "key"]

/-- `isSecretField`: the lowercased field name contains one of the secret
substrings. -/
def isSecretField (fieldName : String) : Bool :=
  secretFields.any fun secret =>
    strContainsSub (jsToLower fieldName).data secret.data

/-- `showValue = !isSecret || showSecrets[field]` from the render loop
(`showSecrets` is the visibility-toggle map, `false` when the key is absent). -/
def showValue (field : String) (showSecrets : String → Bool) : Bool :=
  !(isSecretField field) || showSecrets field

/-- The input's `type` attribute: `showValue ? 'text' : 'password'`. -/
def inputType (field : String) (showSecrets : String → Bool) : String :=
  if showValue field showSecrets then "text" else "password"

/-! ## MCPTestPanel.handleTest -/

/-- The `TestResult` fields the panel manipulates (timing/result payload elided). -/
structure TestResult where
  success : Bool
  action : String
  error : Option String
  deriving DecidableEq

/-- State of `MCPTestPanel`: the selected action, the raw test-parameter text,
the last test result and the error banner. -/
structure TestPanelState where
  selectedAction : String
  testParams : String
  testResult : Option TestResult
  error : Option String
  deriving DecidableEq

/-- The `testAction` call and its aftermath: a result sets `testResult`; a
thrown non-syntax error lands in the `catch` and sets the error banner. -/
def runAction (st : TestPanelState) (actionResult : Except String TestResult) :
    TestPanelState × Bool :=
  match actionResult with
  | Except.ok r => ({ st with testResult := some r }, true)
  | Except.error e => ({ st with error := some e }, true)

/-- `handleTest`: guard on a selected action, clear error and previous result,
parse the parameters when non-blank (`parseOk` is the `JSON.parse` outcome;
`false` is a thrown `SyntaxError`), then invoke the action. The returned flag
records whether `testAction` was called. -/
def handleTest (st : TestPanelState) (parseOk : Bool)
    (actionResult : Except String TestResult) : TestPanelState × Bool :=
  if st.selectedAction == "" then
    ({ st with error := some "Please select an action to test" }, false)
  else
    let cleared := { st with error := none, testResult := none }
    if jsTrim st.testParams == "" then
      runAction cleared actionResult
    else if parseOk then
      runAction cleared actionResult
    else
      ({ cleared with error := some "Invalid JSON in test parameters" }, false)

/-- The Run Test button: `disabled={loading || !selectedAction}`, so a test
invocation from the panel happens only when enabled. -/
def runTestEnabled (loading : Bool) (st : TestPanelState) : Bool :=
  !loading && !(st.selectedAction == "")

/-- A panel state with an action selected, malformed parameter text, and a
previously displayed test result. -/
def panelState0 : TestPanelState :=
  ⟨"search", "not json", some ⟨true, "search", none⟩, none⟩

/-! ## Helper lemmas -/

/-- While a turn is in flight (`isLoading`), `sendMessage` returns without
effect: no message is appended, no request is issued. -/
theorem sendMessageStart_loading (newId : String) (st : ChatState)
    (h : st.isLoading = true) : sendMessageStart newId st = (st, false) := by
  unfold sendMessageStart
  simp [h]

/-- Every `ChatInterface` event preserves the session invariant. -/
theorem chatStep_inv {st1 st2 : ChatState} (hinv : ChatInv st1)
    (hs : ChatStep st1 st2) : ChatInv st2 := by
  cases hs with
  | send newId h =>
      have hload : st1.isLoading = false := by
        cases hb : st1.isLoading
        · rfl
        · rw [sendMessageStart_loading newId st1 hb] at h
          simp at h
      have hp : st1.pending = 0 := by
        unfold ChatInv at hinv
        rw [hload] at hinv
        simpa using hinv
      unfold sendMessageStart at h ⊢
      cases hc : (jsTrim st1.inputMessage == "" || !st1.agentPresent || st1.isLoading) with
      | true => rw [hc] at h; simp at h
      | false =>
          simp [ChatInv, hp]
  | typeInput s h =>
      unfold ChatInv at hinv ⊢
      simpa using hinv
  | finish newId resp h =>
      have hload : st1.isLoading = true := by
        cases hb : st1.isLoading
        · unfold ChatInv at hinv
          rw [hb] at hinv
          simp at hinv
          omega
        · rfl
      have hp : st1.pending = 1 := by
        unfold ChatInv at hinv
        rw [hload] at hinv
        simpa using hinv
      unfold sendMessageFinish
      cases hr : successResponse resp <;> simp [ChatInv, hp]

/-- The session invariant holds at every reachable state. -/
theorem chatReachable_inv {init st : ChatState} (h0 : ChatInv init)
    (h : ChatReachable init st) : ChatInv st := by
  induction h with
  | refl => exact h0
  | step stMid stNext hr hs ih => exact chatStep_inv ih hs

/-! ## Claims about the API-driven chat flow -/

/-- Claim C1: for every chat session, at most one turn is in flight at any
instant: in every state reachable from an idle state the number of outstanding
agent requests is at most one, and while a request is in flight (`isLoading`)
`sendMessage` returns without effect, so no second turn can enter processing. -/
theorem c1_sequential_turns (init st : ChatState) (h0 : ChatInv init)
    (h : ChatReachable init st) :
    st.pending ≤ 1 ∧
    ∀ newId, st.isLoading = true → sendMessageStart newId st = (st, false) := by
  have hinv := chatReachable_inv h0 h
  unfold ChatInv at hinv
  constructor
  · cases hb : st.isLoading <;> rw [hb] at hinv <;> simp [hinv]
  · intro newId hl
    exact sendMessageStart_loading newId st hl

/-- Witness for C1: from a fresh session, sending one message reaches a state
with one pending request, and a second send there is a no-op. -/
theorem c1_sequential_turns_witness :
    ChatInv chatState0 ∧
    (sendMessageStart "1" chatState0).1.pending ≤ 1 ∧
    sendMessageStart "2" (sendMessageStart "1" chatState0).1 =
      ((sendMessageStart "1" chatState0).1, false) := by
  have h := c1_sequential_turns chatState0 (sendMessageStart "1" chatState0).1
    (by unfold ChatInv; decide)
    (ChatReachable.step _ _ _ (ChatReachable.refl _) (ChatStep.send _ "1" (by decide)))
  exact ⟨by unfold ChatInv; decide, h.1, h.2 "2" (by decide)⟩

/-- Claim C3 counterexample: a second finalized transcript ("m2") arriving
while a turn is in flight is NOT retained in any queue: `sendMessage` returns
without issuing a request and without changing state, and after the in-flight
turn completes, no message with the second transcript's content exists
anywhere in the session — the transcript was dropped, not queued. -/
theorem c3_counterexample :
    (sendMessageStart "2" chatStateBusy).2 = false ∧
    (sendMessageStart "2" chatStateBusy).1 = chatStateBusy ∧
    ((sendMessageFinish "3" (some goodResponse) chatStateBusy).messages.filter
        (fun m => m.content == "m2")) = [] ∧
    (sendMessageFinish "3" (some goodResponse) chatStateBusy).isLoading = false := by
  decide

/-- Claim C3 (amended): a finalized transcript arriving while a turn is in
flight is rejected, not queued: `sendMessage` returns without effect (no
request issued, no message recorded), so turns never interleave, but the
second transcript is dropped rather than processed later. -/
theorem c3_transcript_rejected (st : ChatState) (newId : String)
    (h : st.isLoading = true) :
    sendMessageStart newId st = (st, false) ∧
    (sendMessageStart newId st).1.messages = st.messages := by
  constructor
  · exact sendMessageStart_loading newId st h
  · rw [sendMessageStart_loading newId st h]

/-- Witness for the amended C3 at the concrete busy state. -/
theorem c3_transcript_rejected_witness :
    sendMessageStart "2" chatStateBusy = (chatStateBusy, false) ∧
    (sendMessageStart "2" chatStateBusy).1.messages = chatStateBusy.messages :=
  c3_transcript_rejected chatStateBusy "2" (by decide)

/-- Claim C4: every agent-invoke failure is contained at its stage: whatever
the call's outcome, the handler terminates with `isLoading` cleared, the prior
conversation preserved, the agent still attached, and on failure an
in-conversation error message appended — the session survives and no fault
escapes the turn. -/
theorem c4_error_containment (newId : String) (resp : Option AgentInvokeResponse)
    (st : ChatState) :
    (sendMessageFinish newId resp st).isLoading = false ∧
    (∃ tail, (sendMessageFinish newId resp st).messages = st.messages ++ tail) ∧
    (sendMessageFinish newId resp st).agentPresent = st.agentPresent ∧
    (successResponse resp = none →
      sendMessageFinish newId resp st =
        { st with messages := st.messages ++ [agentUnavailableMessage],
                  isLoading := false, pending := st.pending - 1 }) := by
  unfold sendMessageFinish
  cases hr : successResponse resp with
  | none => exact ⟨rfl, ⟨[agentUnavailableMessage], rfl⟩, rfl, fun _ => rfl⟩
  | some s => exact ⟨rfl, ⟨[⟨newId, s, Role.assistant⟩], rfl⟩, rfl, by simp⟩

/-- Witness for C4 at a concrete failing response. -/
theorem c4_error_containment_witness :
    sendMessageFinish "9" (some failResponse) chatState0 =
      { chatState0 with
          messages := chatState0.messages ++ [agentUnavailableMessage],
          isLoading := false, pending := chatState0.pending - 1 } :=
  (c4_error_containment "9" (some failResponse) chatState0).2.2.2 (by decide)

/-- The `sendMessage` success test only ever yields a non-empty reply text. -/
theorem successResponse_ne_empty {resp : Option AgentInvokeResponse} {s : String}
    (h : successResponse resp = some s) : s ≠ "" := by
  cases resp with
  | none => simp [successResponse] at h
  | some r =>
    cases hsu : r.success with
    | false => simp [successResponse, hsu] at h
    | true =>
      cases hr : r.agent_response with
      | none => simp [successResponse, hsu, hr] at h
      | some t =>
        by_cases ht : t == ""
        · simp [successResponse, hsu, hr, ht] at h
        · simp [successResponse, hsu, hr, ht] at h
          subst h
          simpa using ht

/-- Claim C5: every turn completed through the shipped flow runs with TTS
disabled (`tts_enabled: false` in the request), yet still completes with a
non-empty reply text, a null synthesized-audio handle, and a completed (not
abandoned) turn outcome, appending the assistant reply to the conversation. -/
theorem c5_tts_disabled_turn (newId userInput sessionId : String)
    (resp : Option AgentInvokeResponse) (st : ChatState) (s : String)
    (h : successResponse resp = some s) :
    (invokeRequest userInput sessionId).tts_enabled = false ∧
    s ≠ "" ∧
    turnResult resp = ⟨some s, none, true⟩ ∧
    sendMessageFinish newId resp st =
      { st with messages := st.messages ++ [⟨newId, s, Role.assistant⟩],
                isLoading := false, pending := st.pending - 1 } := by
  refine ⟨rfl, successResponse_ne_empty h, ?_, ?_⟩
  · unfold turnResult
    rw [h]
  · unfold sendMessageFinish
    rw [h]

/-- Witness for C5 at a concrete successful response. -/
theorem c5_tts_disabled_turn_witness :
    (invokeRequest "u" "sess").tts_enabled = false ∧
    "reply" ≠ "" ∧
    turnResult (some goodResponse) = ⟨some "reply", none, true⟩ ∧
    sendMessageFinish "7" (some goodResponse) chatState0 =
      { chatState0 with
          messages := chatState0.messages ++ [⟨"7", "reply", Role.assistant⟩],
          isLoading := false, pending := chatState0.pending - 1 } :=
  c5_tts_disabled_turn "7" "u" "sess" (some goodResponse) chatState0 "reply" (by decide)

/-! ## Claim about the degradation policy -/

/-- A failure report never re-enables a capability: each enabled flag after
the report implies the flag before it. -/
theorem report_enabled_true (s : SupervisorState) (c : Capability) :
    ((reportCapabilityFailure s c).stt.enabled = true → s.stt.enabled = true) ∧
    ((reportCapabilityFailure s c).tts.enabled = true → s.tts.enabled = true) := by
  cases c with
  | stt =>
      by_cases ht : failureThreshold ≤ s.stt.consecutiveFailures + 1 <;>
        simp [reportCapabilityFailure, capOf, setCap, ht]
  | tts =>
      by_cases ht : failureThreshold ≤ s.tts.consecutiveFailures + 1 <;>
        simp [reportCapabilityFailure, capOf, setCap, ht]

/-- Degradation severity is antitone in the enabled flags. -/
theorem levelOfFlags_mono : ∀ (a1 b1 a2 b2 : Bool),
    (a2 = true → a1 = true) → (b2 = true → b1 = true) →
    levelRank (levelOfFlags a1 b1) ≤ levelRank (levelOfFlags a2 b2) := by
  decide

/-- A single failure report never lowers the degradation severity. -/
theorem report_mono (s : SupervisorState) (c : Capability) :
    levelRank (computeLevel s) ≤
      levelRank (computeLevel (reportCapabilityFailure s c)) :=
  levelOfFlags_mono _ _ _ _ (report_enabled_true s c).1 (report_enabled_true s c).2

/-- A sequence of failure reports never lowers the degradation severity. -/
theorem reports_mono (cs : List Capability) : ∀ s : SupervisorState,
    levelRank (computeLevel s) ≤
      levelRank (computeLevel (cs.foldl reportCapabilityFailure s)) := by
  induction cs with
  | nil => intro s; simp
  | cons c t ih =>
      intro s
      exact le_trans (report_mono s c) (ih (reportCapabilityFailure s c))

/-- An unsuccessful recheck changes nothing. -/
theorem recheck_false (s : SupervisorState) (c : Capability) :
    recheckCapability s c false = s := rfl

/-- Claim C2 (modelled from the spec; the supervisor has no source
implementation): the degradation level after any sequence of capability
failure reports is at least the level before it, and any supervisor step
that strictly lowers the level is an explicit successful `recheckCapability`
call — the level never de-escalates implicitly. -/
theorem c2_degradation_monotone :
    (∀ (s : SupervisorState) (cs : List Capability),
        levelRank (computeLevel s) ≤
          levelRank (computeLevel (cs.foldl reportCapabilityFailure s))) ∧
    (∀ (s s2 : SupervisorState), SupervisorStep s s2 →
        levelRank (computeLevel s2) < levelRank (computeLevel s) →
        ∃ c : Capability, s2 = recheckCapability s c true) := by
  constructor
  · intro s cs
    exact reports_mono cs s
  · intro s s2 hstep hlt
    cases hstep with
    | report c => exact absurd hlt (not_lt.mpr (report_mono s c))
    | recheck c healthy =>
        cases healthy with
        | false =>
            rw [recheck_false] at hlt
            exact absurd hlt (lt_irrefl _)
        | true => exact ⟨c, rfl⟩

/-- Witness for C2: from a state degraded by STT failures, the only
severity-lowering step is the successful recheck itself. -/
theorem c2_degradation_monotone_witness :
    ∃ c : Capability,
      recheckCapability supDegraded Capability.stt true =
        recheckCapability supDegraded c true :=
  c2_degradation_monotone.2 supDegraded
    (recheckCapability supDegraded Capability.stt true)
    (SupervisorStep.recheck supDegraded Capability.stt true)
    (by decide)

/-! ## Claim about the connect flow -/

/-- Claim C6: every session-start attempt enters the initializing state
(`isConnecting` set, prior error cleared) and ends it; when the token step
succeeds a transport join is attempted; a join that fails (including a join
that times out, surfacing as a rejected `connect`) leaves the client
disconnected with the error surfaced; and the client is connected afterwards
only if the join actually succeeded — no partial connection state. -/
theorem c6_connect_flow (st : VoiceChatState) (tR : Except String TokenResponse)
    (jR : Except String Unit) (h0 : st.isConnected = false) :
    (handleConnectBegin st).isConnecting = true ∧
    (handleConnectBegin st).connectionError = none ∧
    (handleConnect st tR jR).1.isConnecting = false ∧
    (∀ t, tR = Except.ok t → t.success = true → (handleConnect st tR jR).2 = true) ∧
    (∀ t e, tR = Except.ok t → t.success = true → jR = Except.error e →
        (handleConnect st tR jR).1.connectionError = some e ∧
        (handleConnect st tR jR).1.isConnected = false) ∧
    ((handleConnect st tR jR).1.isConnected = true →
        jR = Except.ok () ∧ ∃ t, tR = Except.ok t ∧ t.success = true) := by
  unfold handleConnect handleConnectFinish handleConnectBegin
  cases tR with
  | error e0 =>
      refine ⟨rfl, rfl, rfl, ?_, ?_, ?_⟩
      · intro t ht
        exact absurd ht (by simp)
      · intro t e ht
        exact absurd ht (by simp)
      · intro hc
        simp at hc
        rw [h0] at hc
        exact absurd hc (by simp)
  | ok t0 =>
      cases hts : t0.success with
      | false =>
          refine ⟨rfl, rfl, by simp [hts], ?_, ?_, ?_⟩
          · intro t ht hsu
            cases ht
            rw [hts] at hsu
            exact absurd hsu (by simp)
          · intro t e ht hsu
            cases ht
            rw [hts] at hsu
            exact absurd hsu (by simp)
          · intro hc
            simp [hts] at hc
            rw [h0] at hc
            exact absurd hc (by simp)
      | true =>
          cases jR with
          | error e1 =>
              refine ⟨rfl, rfl, by simp [hts], ?_, ?_, ?_⟩
              · intro t ht hsu
                simp [hts]
              · intro t e ht hj
                cases ht
                intro hje
                cases hje
                constructor
                · simp [hts]
                · simp [hts]
                  exact h0
              · intro hc
                simp [hts] at hc
                rw [h0] at hc
                exact absurd hc (by simp)
          | ok u =>
              refine ⟨rfl, rfl, by simp [hts], ?_, ?_, ?_⟩
              · intro t ht hsu
                simp [hts]
              · intro t e ht hsu hj
                exact absurd hj (by simp)
              · intro hc
                cases u
                exact ⟨rfl, ⟨t0, rfl, hts⟩⟩

/-- Witness for C6: a join timeout on an otherwise good token surfaces the
error and leaves the client disconnected. -/
theorem c6_connect_flow_witness :
    (handleConnect vcState0 tokOk joinTimeout).1.isConnecting = false ∧
    (handleConnect vcState0 tokOk joinTimeout).2 = true ∧
    (handleConnect vcState0 tokOk joinTimeout).1.connectionError =
      some "join timed out" ∧
    (handleConnect vcState0 tokOk joinTimeout).1.isConnected = false := by
  have h := c6_connect_flow vcState0 tokOk joinTimeout rfl
  refine ⟨h.2.2.1, h.2.2.2.1 ⟨true, none, "wss://lk", "tok"⟩ rfl rfl, ?_, ?_⟩
  · exact (h.2.2.2.2.1 ⟨true, none, "wss://lk", "tok"⟩ "join timed out" rfl rfl rfl).1
  · exact (h.2.2.2.2.1 ⟨true, none, "wss://lk", "tok"⟩ "join timed out" rfl rfl rfl).2

/-! ## Claim about the simulated chat flow -/

/-- Claim C7: the shipped (non-API) chat flow only simulates the assistant:
the canned-response list has exactly five entries, the delay is the fixed
1500 ms, the flow performs no STT, TTS or agent-API call, and every message
it produces is either pre-existing, a user message, or drawn from the canned
list. -/
theorem c7_simulated_responses (newId : String)
    (idx : Fin simulatedResponses.length) (st : SimChatState) :
    simulatedResponses.length = 5 ∧
    simulatedDelayMs = 1500 ∧
    ExternalCall.sttCall ∉ (handleSendMessage newId idx st).2 ∧
    ExternalCall.ttsCall ∉ (handleSendMessage newId idx st).2 ∧
    ExternalCall.agentApiCall ∉ (handleSendMessage newId idx st).2 ∧
    ∀ m ∈ (handleSendMessage newId idx st).1.messages,
      m ∈ st.messages ∨ m.role = Role.user ∨ m.content ∈ simulatedResponses := by
  unfold handleSendMessage
  cases hc : (jsTrim st.inputMessage == "" || !st.agentPresent || st.isLoading) with
  | true =>
      refine ⟨rfl, rfl, by simp, by simp, by simp, ?_⟩
      intro m hm
      exact Or.inl hm
  | false =>
      refine ⟨rfl, rfl, by simp, by simp, by simp, ?_⟩
      intro m hm
      rw [if_neg (by simp)] at hm
      simp only [List.mem_append, List.mem_cons, List.not_mem_nil, or_false] at hm
      rcases hm with hm | hm | hm
      · exact Or.inl hm
      · subst hm
        exact Or.inr (Or.inl rfl)
      · subst hm
        exact Or.inr (Or.inr (List.get_mem simulatedResponses idx.1 idx.2))

/-- Witness for C7: the pre-existing welcome message of a concrete state is
covered by the coverage clause after a concrete simulated send. -/
theorem c7_simulated_responses_witness :
    simulatedResponses.length = 5 ∧
    (simMsg0 ∈ simState0.messages ∨ simMsg0.role = Role.user ∨
      simMsg0.content ∈ simulatedResponses) := by
  have h := c7_simulated_responses "1" ⟨0, by decide⟩ simState0
  exact ⟨h.1, h.2.2.2.2.2 simMsg0 (by decide)⟩

/-! ## Claim about the catalog sort -/

/-- Claim C8: the displayed connector list is the input list sorted by status
priority (enabled, then degraded, then disabled, then unconfigured, with every
unknown status strictly last) and alphabetically by name within equal
priority, and it is a permutation of the input. -/
theorem c8_catalog_sorted (l : List MCPConnector) (s : String)
    (h1 : s ≠ "enabled") (h2 : s ≠ "degraded") (h3 : s ≠ "disabled")
    (h4 : s ≠ "unconfigured") :
    List.Perm (sortedConnectors l) l ∧
    List.Sorted connectorLE (sortedConnectors l) ∧
    statusOrder "enabled" < statusOrder "degraded" ∧
    statusOrder "degraded" < statusOrder "disabled" ∧
    statusOrder "disabled" < statusOrder "unconfigured" ∧
    statusOrder "unconfigured" < statusOrder s := by
  have hs : statusOrder s = 4 := by
    unfold statusOrder
    simp [h1, h2, h3, h4]
  refine ⟨List.perm_insertionSort connectorLE l,
    List.sorted_insertionSort connectorLE l, by decide, by decide, by decide, ?_⟩
  rw [hs]
  decide

/-- Witness for C8 on a concrete catalog list and an unknown status. -/
theorem c8_catalog_sorted_witness :
    List.Perm (sortedConnectors connList0) connList0 ∧
    List.Sorted connectorLE (sortedConnectors connList0) ∧
    statusOrder "enabled" < statusOrder "degraded" ∧
    statusOrder "degraded" < statusOrder "disabled" ∧
    statusOrder "disabled" < statusOrder "unconfigured" ∧
    statusOrder "unconfigured" < statusOrder "mystery" :=
  c8_catalog_sorted connList0 "mystery" (by decide) (by decide) (by decide)
    (by decide)

/-! ## Claim about secret-field masking -/

/-- Claim C9: a configuration field renders as a masked password input exactly
when it is a secret field whose visibility has not been toggled; every
non-secret field renders as a plain text input; and a field is secret exactly
when its lowercased name contains one of the five secret substrings. -/
theorem c9_secret_fields (field : String) (showSecrets : String → Bool) :
    (inputType field showSecrets = "password" ↔
      (isSecretField field = true ∧ showSecrets field = false)) ∧
    (isSecretField field = false → inputType field showSecrets = "text") ∧
    (isSecretField field = true ↔
      ∃ s ∈ secretFields, strContainsSub (jsToLower field).data s.data = true) := by
  refine ⟨?_, ?_, ?_⟩
  · unfold inputType showValue
    cases hs : isSecretField field <;> cases ht : showSecrets field <;> simp
  · intro h
    unfold inputType showValue
    simp [h]
  · unfold isSecretField
    exact List.any_eq_true

/-- Witness for C9: a secret-named field is masked; a plain field is not. -/
theorem c9_secret_fields_witness :
    inputType "Api_Key" (fun _ => false) = "password" ∧
    inputType "username" (fun _ => false) = "text" :=
  ⟨(c9_secret_fields "Api_Key" (fun _ => false)).1.mpr ⟨by decide, rfl⟩,
   (c9_secret_fields "username" (fun _ => false)).2.1 (by decide)⟩

/-! ## Claim about the test panel -/

/-- Claim C10: for every test invocation from the panel (the Run Test button
requires an action to be selected), non-blank test-parameter text that fails
to parse as JSON makes `handleTest` report exactly the error
"Invalid JSON in test parameters", never call `testAction`, clear the
previously displayed test result, and change nothing else. -/
theorem c10_invalid_json (st : TestPanelState) (loading parseOk : Bool)
    (actionResult : Except String TestResult)
    (henabled : runTestEnabled loading st = true)
    (hparams : (jsTrim st.testParams == "") = false)
    (hparse : parseOk = false) :
    handleTest st parseOk actionResult =
      ({ st with error := some "Invalid JSON in test parameters",
                 testResult := none }, false) := by
  have hsel : (st.selectedAction == "") = false := by
    unfold runTestEnabled at henabled
    cases hb : (st.selectedAction == "")
    · rfl
    · rw [hb] at henabled
      simp at henabled
  unfold handleTest
  simp [hsel, hparams, hparse]

/-- Witness for C10 at a concrete panel state with malformed parameters. -/
theorem c10_invalid_json_witness :
    handleTest panelState0 false (Except.error "x") =
      ({ panelState0 with error := some "Invalid JSON in test parameters",
                          testResult := none }, false) :=
  c10_invalid_json panelState0 false false (Except.error "x") (by decide)
    (by decide) rfl
